import Mathlib

/-!
Verification of `src/python/portfolio_optimizer.py`.

The script is a thin orchestration layer: it fetches historical prices from an
external market-data provider (`yfinance`), delegates mean-variance
optimization to an external library (`pypfopt`), and performs local arithmetic
(compound-interest projections, threshold classification) plus string
templating.  We embed it shallowly:

* Python floats are modelled as rationals (ℚ); `round(x, 2)` becomes exact
  decimal rounding with the half-to-even tie rule of CPython's `round`.
* The external collaborators (data fetch, optimizer, float `sqrt`, float
  parsing) and the clock (`datetime.now()`) are an explicit environment
  `Env`; the script's own code is embedded as total functions over it.
* `sys.exit(1)` after printing a JSON error, returned error records, and
  uncaught Python exceptions are distinguished in the result types, and the
  `__main__` block is embedded as `runMain : Env → List String → RunOut`
  recording the JSON objects printed to stdout, the exit code, and whether
  the process died with an uncaught traceback.
-/

deriving instance DecidableEq for Except

namespace PortfolioOptimizer

/-- Round half to even (banker's rounding) to an integer: the rounding mode of
CPython's built-in `round`. -/
def roundHalfEven (x : ℚ) : ℤ :=
  let f := ⌊x⌋
  let r := x - f
  if r < 1/2 then f
  else if 1/2 < r then f + 1
  else if f % 2 = 0 then f else f + 1

/-- Embedding of Python's `round(x, 2)` (two decimal places). -/
def pyRound2 (x : ℚ) : ℚ := (roundHalfEven (x * 100) : ℚ) / 100

/-- Embedding of Python's `f"{x:.1f}"` for the non-negative percentages
formatted by this script. -/
def fmtFixed1 (x : ℚ) : String :=
  let n := roundHalfEven (x * 10)
  toString (n / 10) ++ "." ++ toString (n % 10)

/-- Helper for `pySplit`: walk the characters, cutting at the separator. -/
def pySplitAux (sep : Char) : List Char → List Char → List String
  | [], acc => [String.mk acc.reverse]
  | c :: rest, acc =>
    if c = sep then String.mk acc.reverse :: pySplitAux sep rest []
    else pySplitAux sep rest (c :: acc)

/-- Embedding of Python's `s.split(sep)` for a one-character separator:
`"".split(",") = [""]`, `"a,b".split(",") = ["a", "b"]`. -/
def pySplit (s : String) (sep : Char) : List String :=
  pySplitAux sep s.toList []

/-- Python exceptions that the script can raise uncaught. -/
inductive PyExc where
  | indexError
  | valueError
  | zeroDivisionError
deriving DecidableEq, Repr

/-- The fetched price table (`yf.download(...)["Adj Close"]`): the `empty`
attribute of the DataFrame, and the columns, each a ticker paired with its
adjusted-close series (`none` entries are the NaN rows that `dropna()`
removes). -/
structure PriceTable where
  empty : Bool
  cols : List (String × List (Option ℚ))
deriving DecidableEq, Repr

/-- Membership test `ticker in data.columns`. -/
def PriceTable.colNames (d : PriceTable) : List String := d.cols.map Prod.fst

/-- Column access `data[ticker]`. -/
def PriceTable.col? (d : PriceTable) (t : String) : Option (List (Option ℚ)) :=
  d.cols.lookup t

/-- What the external optimizer (`pypfopt`) hands back for one price table:
`ef.clean_weights()` and the `portfolio_performance` triple (expected annual
return, annual volatility, Sharpe ratio), all pre-rounding. -/
structure OptimOutput where
  cleanedWeights : List (String × ℚ)
  expectedReturn : ℚ
  volatility : ℚ
  sharpe : ℚ
deriving DecidableEq, Repr

/-- The environment: external collaborators and the clock.  `fetch` embeds
`yf.download` (raising is the `.error` case), `optimize` embeds the
`pypfopt` pipeline (`mean_historical_return`/`sample_cov`/`max_sharpe`/
`clean_weights`/`portfolio_performance`), `today` is the current day as a
day number (`datetime.now()`, with `strftime("%Y-%m-%d")` embedded as the
identity on day numbers and `timedelta(days = 730)` as subtraction),
`sqrt` is float square root and `parseFloat` is Python's `float(string)`
(`none` models `ValueError`). -/
structure Env where
  fetch : List String → Option ℤ → Option ℤ → Except String PriceTable
  optimize : PriceTable → OptimOutput
  today : ℤ
  sqrt : ℚ → ℚ
  parseFloat : String → Option ℚ

/-- The successful result dictionary of `optimize_portfolio`. -/
structure OptRecord where
  optimal_weights : List (String × ℚ)
  expected_annual_return : ℚ
  annual_volatility : ℚ
  sharpe : ℚ
  tickers : List String
  period_start : Option ℤ
  period_end : Option ℤ
deriving DecidableEq, Repr, Inhabited

/-- `optimize_portfolio` either returns an error record `{"error": msg}` or a
full result record. -/
inductive OptResult where
  | error (msg : String)
  | ok (r : OptRecord)
deriving DecidableEq, Repr

/-- Embedding of `fetch_portfolio_data`: a provider exception is caught,
turned into the printed message, and the process exits (the `.error` case;
the caller `runMain` renders the print and the exit code). -/
def fetch_portfolio_data (env : Env) (tickers : List String)
    (start_date end_date : Option ℤ) : Except String PriceTable :=
  match env.fetch tickers start_date end_date with
  | .error e => .error ("Failed to fetch data: " ++ e)
  | .ok d => .ok d

/-- The date range `optimize_portfolio` actually uses: with no start date both
bounds are recomputed from the clock (730 days back to today), otherwise the
arguments pass through. -/
def effectiveRange (env : Env) (start_date end_date : Option ℤ) :
    Option ℤ × Option ℤ :=
  match start_date with
  | none => (some (env.today - 730), some env.today)
  | some s => (some s, end_date)

/-- Embedding of `optimize_portfolio(tickers, start_date, end_date)`.  The
outer `.error` is the printed-and-exit path of `fetch_portfolio_data`. -/
def optimize_portfolio (env : Env) (tickers : List String)
    (start_date end_date : Option ℤ) : Except String OptResult :=
  let r := effectiveRange env start_date end_date
  match fetch_portfolio_data env tickers r.1 r.2 with
  | .error m => .error m
  | .ok data =>
    if data.empty then .ok (.error "No data available for the given tickers")
    else
      let o := env.optimize data
      .ok (.ok
        { optimal_weights := o.cleanedWeights
          expected_annual_return := pyRound2 (o.expectedReturn * 100)
          annual_volatility := pyRound2 (o.volatility * 100)
          sharpe := pyRound2 o.sharpe
          tickers := tickers
          period_start := r.1
          period_end := r.2 })

/-- Pandas `series.pct_change().dropna()`: successive relative changes (the
leading NaN is dropped).  A zero previous price gives infinity in pandas
without raising; the claims below never touch that value, and rational
division by zero models it as 0. -/
def pctChange (l : List ℚ) : List ℚ :=
  List.zipWith (fun prev cur => (cur - prev) / prev) l l.tail

/-- Pandas `series.mean()`.  On an empty series pandas yields NaN without
raising; rational division by zero models it as 0, and no claim depends on
that value. -/
def seriesMean (l : List ℚ) : ℚ := l.sum / l.length

/-- Pandas `series.std()` (sample standard deviation, `ddof = 1`) via the
environment's float square root.  On fewer than two points pandas yields NaN
without raising; division by zero models it as `sqrt 0`. -/
def seriesStd (env : Env) (l : List ℚ) : ℚ :=
  env.sqrt ((l.map (fun x => (x - seriesMean l) ^ 2)).sum / ((l.length : ℚ) - 1))

/-- One entry of `stock_analysis`. -/
structure StockEntry where
  current_price : ℚ
  avg_return : ℚ
  volatility : ℚ
  optimal_weight : ℚ
  recommended_allocation : ℚ
deriving DecidableEq, Repr, Inhabited

/-- The per-ticker body of the `stock_analysis` loop, for a column already
reduced by `dropna()`.  `stock_data.iloc[-1]` raises `IndexError` when the
column has no non-NaN value. -/
def stockEntry (env : Env) (series : List ℚ) (weight investment : ℚ) :
    Except PyExc StockEntry :=
  match series.getLast? with
  | none => .error .indexError
  | some last =>
    let returns := pctChange series
    .ok
      { current_price := pyRound2 last
        avg_return := pyRound2 (seriesMean returns * 252 * 100)
        volatility := pyRound2 (seriesStd env returns * env.sqrt 252 * 100)
        optimal_weight := weight
        recommended_allocation := pyRound2 (investment * weight) }

/-- `optimization["optimal_weights"].get(ticker, 0)`. -/
def weightOf (weights : List (String × ℚ)) (t : String) : ℚ :=
  (weights.lookup t).getD 0

/-- The `stock_analysis` loop: requested tickers absent from the data columns
are skipped.  (A Python dict would also deduplicate repeated tickers; the
key set is identical.) -/
def buildStockAnalysis (env : Env) (data : PriceTable) :
    List String → List (String × ℚ) → ℚ →
    Except PyExc (List (String × StockEntry))
  | [], _, _ => .ok []
  | t :: rest, weights, investment =>
    match data.col? t with
    | none => buildStockAnalysis env data rest weights investment
    | some raw =>
      match stockEntry env (raw.filterMap id) (weightOf weights t) investment with
      | .error e => .error e
      | .ok entry =>
        match buildStockAnalysis env data rest weights investment with
        | .error e => .error e
        | .ok tail => .ok ((t, entry) :: tail)

/-- Python `max` over a list of values; raises `ValueError` when empty. -/
def pyMax : List ℚ → Except PyExc ℚ
  | [] => .error .valueError
  | x :: xs => .ok (xs.foldl max x)

/-- The first, Sharpe-ratio driven recommendation string. -/
def sharpeRecommendation (sharpe : ℚ) : String :=
  if sharpe > 3/2 then "Excellent risk-adjusted returns. Strong portfolio allocation."
  else if sharpe > 1 then "Good risk-adjusted returns. Portfolio is well-balanced."
  else "Consider diversifying to improve risk-adjusted returns."

/-- The per-ticker recommendation strings of `generate_recommendations`. -/
def stockRecommendation (t : String) (a : StockEntry) : List String :=
  if a.optimal_weight > 3/10 then
    [t ++ ": High allocation recommended (" ++ fmtFixed1 (a.optimal_weight * 100)
      ++ "%). Strong performer."]
  else if a.optimal_weight < 5/100 then
    [t ++ ": Low allocation (" ++ fmtFixed1 (a.optimal_weight * 100)
      ++ "%). Consider alternatives."]
  else []

/-- Embedding of `generate_recommendations(optimization, stock_analysis)`.
`max(weights.values())` raises `ValueError` on an empty weight dict. -/
def generate_recommendations (opt : OptRecord)
    (stock_analysis : List (String × StockEntry)) :
    Except PyExc (List String) :=
  let volatilityRecs :=
    if opt.annual_volatility > 25 then
      ["High volatility detected. Consider adding stable assets to reduce risk."]
    else if opt.annual_volatility < 15 then
      ["Low volatility portfolio. Suitable for conservative investors."]
    else []
  match pyMax (opt.optimal_weights.map Prod.snd) with
  | .error e => .error e
  | .ok maxWeight =>
    let concentrationRecs :=
      if maxWeight > 2/5 then
        ["Portfolio is concentrated in one asset (" ++ fmtFixed1 (maxWeight * 100)
          ++ "%). Consider diversifying."]
      else []
    .ok (sharpeRecommendation opt.sharpe ::
      (volatilityRecs ++ concentrationRecs ++
        (stock_analysis.map (fun p => stockRecommendation p.1 p.2)).flatten))

/-- The `risk_level` conditional of `predict_portfolio_performance`
(line 114 of the source). -/
def riskLevel (annual_volatility : ℚ) : String :=
  if annual_volatility > 25 then "High"
  else if annual_volatility > 15 then "Medium"
  else "Low"

/-- `risk_assessment["diversification_score"]` (line 115): the percentage of
requested tickers whose optimizer weight exceeds 0.05. -/
def diversificationScore (weights : List (String × ℚ)) (tickers : List String) : ℚ :=
  pyRound2 (((weights.filter (fun p => p.2 > 5/100)).length : ℚ)
    / (tickers.length : ℚ) * 100)

/-- The `investment_projections` sub-dictionary. -/
structure Projections where
  initial_investment : ℚ
  projected_1year : ℚ
  projected_3year : ℚ
  projected_5year : ℚ
  gain_1year : ℚ
  gain_3year : ℚ
  gain_5year : ℚ
deriving DecidableEq, Repr, Inhabited

/-- Lines 96-99 and 109-111: compound the (already rounded, percentage)
expected annual return against the principal. -/
def mkProjections (investment expected_return : ℚ) : Projections :=
  let projected_1year := pyRound2 (investment * (1 + expected_return / 100))
  let projected_3year := pyRound2 (investment * (1 + expected_return / 100) ^ 3)
  let projected_5year := pyRound2 (investment * (1 + expected_return / 100) ^ 5)
  { initial_investment := investment
    projected_1year := projected_1year
    projected_3year := projected_3year
    projected_5year := projected_5year
    gain_1year := pyRound2 (projected_1year - investment)
    gain_3year := pyRound2 (projected_3year - investment)
    gain_5year := pyRound2 (projected_5year - investment) }

/-- The successful result dictionary of `predict_portfolio_performance`. -/
structure PredRecord where
  portfolio_optimization : OptRecord
  stock_analysis : List (String × StockEntry)
  projections : Projections
  risk_level : String
  diversification_score : ℚ
  recommendations : List String
deriving DecidableEq, Repr, Inhabited

/-- `predict_portfolio_performance` either passes through an error record from
the optimization step or returns a full result record. -/
inductive PredResult where
  | error (msg : String)
  | ok (r : PredRecord)
deriving DecidableEq, Repr

/-- Failure modes of `predict_portfolio_performance` other than a returned
error record: the print-and-exit path of `fetch_portfolio_data`, or an
uncaught Python exception. -/
inductive PredFail where
  | exitPrinted (msg : String)
  | uncaught (e : PyExc)
deriving DecidableEq, Repr

/-- Embedding of `predict_portfolio_performance(tickers, investment_amount)`.
Evaluation order follows the source: the optimization, the refetch, the
`stock_analysis` loop (which can raise `IndexError`), the result dictionary
whose `risk_assessment` divides by `len(tickers)` (raising
`ZeroDivisionError` on an empty list) and whose `recommendations` call can
raise `ValueError` on an empty weight dict. -/
def predict_portfolio_performance (env : Env) (tickers : List String)
    (investment : ℚ) : Except PredFail PredResult :=
  let start_date := env.today - 730
  let end_date := env.today
  match optimize_portfolio env tickers (some start_date) (some end_date) with
  | .error m => .error (.exitPrinted m)
  | .ok (.error m) => .ok (.error m)
  | .ok (.ok opt) =>
    match fetch_portfolio_data env tickers (some start_date) (some end_date) with
    | .error m => .error (.exitPrinted m)
    | .ok data =>
      match buildStockAnalysis env data tickers opt.optimal_weights investment with
      | .error e => .error (.uncaught e)
      | .ok stock_analysis =>
        if tickers.length = 0 then .error (.uncaught .zeroDivisionError)
        else
          match generate_recommendations opt stock_analysis with
          | .error e => .error (.uncaught e)
          | .ok recommendations =>
            .ok (.ok
              { portfolio_optimization := opt
                stock_analysis := stock_analysis
                projections := mkProjections investment opt.expected_annual_return
                risk_level := riskLevel opt.annual_volatility
                diversification_score :=
                  diversificationScore opt.optimal_weights tickers
                recommendations := recommendations })

/-- A JSON object printed to standard output by the `__main__` block: either a
top-level `{"error": msg}` printed right before `sys.exit(1)`, or the
serialized result of one of the two commands (which may itself be an error
record). -/
inductive JOut where
  | errorObj (msg : String)
  | optResult (r : OptResult)
  | predResult (r : PredResult)
deriving DecidableEq, Repr

/-- Whether a printed JSON object carries an `error` field. -/
def JOut.hasErrorField : JOut → Bool
  | .errorObj _ => true
  | .optResult (.error _) => true
  | .optResult (.ok _) => false
  | .predResult (.error _) => true
  | .predResult (.ok _) => false

/-- Observable outcome of one CLI invocation: the JSON objects printed to
standard output, the process exit code, and whether the process died with an
uncaught exception (traceback on stderr; CPython then exits with code 1). -/
structure RunOut where
  stdout : List JOut
  exit : Nat
  uncaught : Bool
deriving DecidableEq, Repr

/-- Embedding of the `__main__` block.  `argv` includes the script name at
index 0.  `sys.argv[2]` on a two-element argv raises `IndexError`;
`float(sys.argv[3])` on an unparseable string raises `ValueError`; both die
uncaught with nothing on stdout. -/
def runMain (env : Env) (argv : List String) : RunOut :=
  if argv.length < 2 then
    { stdout := [.errorObj "No tickers provided"], exit := 1, uncaught := false }
  else
    let command := argv.getD 1 ""
    if command = "optimize" then
      match argv.get? 2 with
      | none => { stdout := [], exit := 1, uncaught := true }
      | some targ =>
        match optimize_portfolio env (pySplit targ ',') none none with
        | .error m => { stdout := [.errorObj m], exit := 1, uncaught := false }
        | .ok r => { stdout := [.optResult r], exit := 0, uncaught := false }
    else if command = "predict" then
      match argv.get? 2 with
      | none => { stdout := [], exit := 1, uncaught := true }
      | some targ =>
        let investment? : Option ℚ :=
          if argv.length > 3 then env.parseFloat (argv.getD 3 "") else some 10000
        match investment? with
        | none => { stdout := [], exit := 1, uncaught := true }
        | some investment =>
          match predict_portfolio_performance env (pySplit targ ',') investment with
          | .error (.exitPrinted m) =>
            { stdout := [.errorObj m], exit := 1, uncaught := false }
          | .error (.uncaught _) => { stdout := [], exit := 1, uncaught := true }
          | .ok r => { stdout := [.predResult r], exit := 0, uncaught := false }
    else
      { stdout := [.errorObj "Invalid command. Use \x27optimize\x27 or \x27predict\x27"]
        exit := 1, uncaught := false }

/-- Severity order on the three risk labels, for stating monotonicity. -/
def riskRank (s : String) : ℕ :=
  if s = "High" then 2 else if s = "Medium" then 1 else 0

/-- Well-formed command lines: either too short to reach `sys.argv[2]`, or
long enough that `sys.argv[2]` exists, and any explicit investment amount for
`predict` parses as a float.  (Outside this set the script dies with an
uncaught `IndexError` or `ValueError`.) -/
def ArgsOk (env : Env) (argv : List String) : Prop :=
  (argv.length = 2 → argv.getD 1 "" ≠ "optimize" ∧ argv.getD 1 "" ≠ "predict") ∧
  (argv.getD 1 "" = "predict" → 3 < argv.length →
    (env.parseFloat (argv.getD 3 "")).isSome = true)

/-- Well-behaved external collaborators: a successfully fetched non-empty
table has at least one non-NaN price in every column, and the optimizer
returns a non-empty weight dict for it.  (Otherwise `stock_data.iloc[-1]`
respectively `max(weights.values())` raises.) -/
def EnvOk (env : Env) : Prop :=
  ∀ t sd ed d, env.fetch t sd ed = .ok d → d.empty = false →
    (∀ c ∈ d.cols, c.2.filterMap id ≠ []) ∧ (env.optimize d).cleanedWeights ≠ []

/-! ### Concrete environments used by witnesses and counterexamples -/

/-- An environment whose provider always returns an empty price table. -/
def envEmpty : Env where
  fetch := fun _ _ _ => .ok { empty := true, cols := [] }
  optimize := fun _ => { cleanedWeights := [], expectedReturn := 0, volatility := 0, sharpe := 0 }
  today := 20000
  sqrt := fun q => q
  parseFloat := fun _ => none

/-- A concrete two-column price table. -/
def tableGood : PriceTable where
  empty := false
  cols := [("AAPL", [some 100, some 110, some 121]),
           ("MSFT", [some 200, none, some 220])]

/-- A well-behaved environment: two tickers with short price histories and an
optimizer answer with weights summing to one. -/
def envGood : Env where
  fetch := fun _ _ _ => .ok tableGood
  optimize := fun _ =>
    { cleanedWeights := [("AAPL", 3/5), ("MSFT", 2/5)]
      expectedReturn := 12/100
      volatility := 30/100
      sharpe := 16/10 }
  today := 20000
  sqrt := fun q => q
  parseFloat := fun s => if s = "5000" then some 5000 else none

/-- The concrete record `optimize_portfolio` produces in `envGood`. -/
def optRecGood : OptRecord :=
  match optimize_portfolio envGood ["AAPL", "MSFT"] none none with
  | .ok (.ok r) => r
  | _ => default

/-- The concrete record `predict_portfolio_performance` produces in `envGood`
for both tickers. -/
def goodRec : PredRecord :=
  match predict_portfolio_performance envGood ["AAPL", "MSFT"] 10000 with
  | .ok (.ok r) => r
  | _ => default

/-- As `goodRec`, with an additional requested ticker that the fetched data
does not contain. -/
def goodRec3 : PredRecord :=
  match predict_portfolio_performance envGood ["AAPL", "MSFT", "GOOG"] 10000 with
  | .ok (.ok r) => r
  | _ => default

/-- The concrete recommendation list for `optRecGood` and an empty stock
analysis. -/
def recsGood : List String :=
  match generate_recommendations optRecGood [] with
  | .ok l => l
  | .error _ => []

/-! ### Helper lemmas -/

theorem roundHalfEven_le {x : ℚ} {n : ℤ} (h : x ≤ n) : roundHalfEven x ≤ n := by
  have hf : ⌊x⌋ ≤ n := by
    have := Int.floor_le_floor h
    simpa using this
  unfold roundHalfEven
  dsimp only
  split_ifs with h1 h2 h3
  · exact hf
  · have hlt : (⌊x⌋ : ℚ) < x := by linarith [h2]
    have : (⌊x⌋ : ℚ) < (n : ℚ) := lt_of_lt_of_le hlt h
    exact_mod_cast Int.add_one_le_iff.mpr (by exact_mod_cast this)
  · exact hf
  · have heq : x - ⌊x⌋ = 1/2 := le_antisymm (not_lt.mp h2) (not_lt.mp h1)
    have hlt : (⌊x⌋ : ℚ) < x := by linarith
    have : (⌊x⌋ : ℚ) < (n : ℚ) := lt_of_lt_of_le hlt h
    exact_mod_cast Int.add_one_le_iff.mpr (by exact_mod_cast this)

theorem le_roundHalfEven {x : ℚ} {n : ℤ} (h : (n : ℚ) ≤ x) : n ≤ roundHalfEven x := by
  have hf : n ≤ ⌊x⌋ := Int.le_floor.mpr h
  unfold roundHalfEven
  dsimp only
  split_ifs <;> omega

theorem pyRound2_nonneg {x : ℚ} (h : 0 ≤ x) : 0 ≤ pyRound2 x := by
  unfold pyRound2
  have : (0 : ℤ) ≤ roundHalfEven (x * 100) := le_roundHalfEven (by push_cast; linarith)
  positivity

theorem pyRound2_le_hundred {x : ℚ} (h : x ≤ 100) : pyRound2 x ≤ 100 := by
  unfold pyRound2
  have : roundHalfEven (x * 100) ≤ (10000 : ℤ) := roundHalfEven_le (by push_cast; linarith)
  rw [div_le_iff₀ (by norm_num)]
  calc (roundHalfEven (x * 100) : ℚ) ≤ (10000 : ℤ) := by exact_mod_cast this
  _ = 100 * 100 := by norm_num

theorem pySplitAux_ne_nil (sep : Char) (l acc : List Char) :
    pySplitAux sep l acc ≠ [] := by
  induction l generalizing acc with
  | nil => simp [pySplitAux]
  | cons c rest ih =>
    unfold pySplitAux
    split
    · simp
    · exact ih _

theorem pySplit_ne_nil (s : String) (sep : Char) : pySplit s sep ≠ [] :=
  pySplitAux_ne_nil sep s.toList []

theorem lookup_eq_none_iff {β : Type} {l : List (String × β)} {a : String} :
    l.lookup a = none ↔ a ∉ l.map Prod.fst := by
  induction l with
  | nil => simp [List.lookup]
  | cons p rest ih =>
    cases hb : a == p.1 with
    | true =>
      have : a = p.1 := by simpa using hb
      simp [List.lookup, hb, this]
    | false =>
      have : a ≠ p.1 := by simpa using hb
      simp [List.lookup, hb, this, ih]

theorem lookup_mem {β : Type} {l : List (String × β)} {a : String} {b : β}
    (h : l.lookup a = some b) : (a, b) ∈ l := by
  induction l with
  | nil => simp [List.lookup] at h
  | cons p rest ih =>
    cases hb : a == p.1 with
    | true =>
      have ha : a = p.1 := by simpa using hb
      rw [List.lookup, hb] at h
      obtain rfl : p.2 = b := by simpa using h
      simp [ha]
    | false =>
      rw [List.lookup, hb] at h
      exact List.mem_cons_of_mem _ (ih h)

theorem riskLevel_high_iff (v : ℚ) : riskLevel v = "High" ↔ 25 < v := by
  unfold riskLevel
  split_ifs with h1 h2
  · simp [h1]
  · constructor
    · intro h; exact absurd h (by decide)
    · intro h; exact absurd h h1
  · constructor
    · intro h; exact absurd h (by decide)
    · intro h; exact absurd h h1

theorem riskLevel_medium_iff (v : ℚ) : riskLevel v = "Medium" ↔ 15 < v ∧ v ≤ 25 := by
  unfold riskLevel
  split_ifs with h1 h2
  · constructor
    · intro h; exact absurd h (by decide)
    · rintro ⟨-, hb⟩; exact absurd h1 (not_lt.mpr hb)
  · simp [h2, not_lt.mp h1]
  · constructor
    · intro h; exact absurd h (by decide)
    · rintro ⟨ha, -⟩; exact absurd ha h2

theorem riskLevel_low_iff (v : ℚ) : riskLevel v = "Low" ↔ v ≤ 15 := by
  unfold riskLevel
  split_ifs with h1 h2
  · constructor
    · intro h; exact absurd h (by decide)
    · intro h; exact absurd h1 (not_lt.mpr (h.trans (by norm_num)))
  · constructor
    · intro h; exact absurd h (by decide)
    · intro h; exact absurd h2 (not_lt.mpr h)
  · simp [not_lt.mp h2]

theorem riskLevel_mono {v w : ℚ} (hvw : v ≤ w) :
    riskRank (riskLevel v) ≤ riskRank (riskLevel w) := by
  unfold riskLevel
  split_ifs <;> first | decide | linarith

theorem sharpeRecommendation_excellent_iff (s : ℚ) :
    sharpeRecommendation s =
      "Excellent risk-adjusted returns. Strong portfolio allocation." ↔ 3/2 < s := by
  unfold sharpeRecommendation
  split_ifs with h1 h2
  · simp [h1]
  · constructor
    · intro h; exact absurd h (by decide)
    · intro h; exact absurd h h1
  · constructor
    · intro h; exact absurd h (by decide)
    · intro h; exact absurd h h1

theorem sharpeRecommendation_good_iff (s : ℚ) :
    sharpeRecommendation s =
      "Good risk-adjusted returns. Portfolio is well-balanced." ↔ 1 < s ∧ s ≤ 3/2 := by
  unfold sharpeRecommendation
  split_ifs with h1 h2
  · constructor
    · intro h; exact absurd h (by decide)
    · rintro ⟨-, hb⟩; exact absurd h1 (not_lt.mpr hb)
  · simp [h2, not_lt.mp h1]
  · constructor
    · intro h; exact absurd h (by decide)
    · rintro ⟨ha, -⟩; exact absurd ha h2

theorem sharpeRecommendation_diversify_iff (s : ℚ) :
    sharpeRecommendation s =
      "Consider diversifying to improve risk-adjusted returns." ↔ s ≤ 1 := by
  unfold sharpeRecommendation
  split_ifs with h1 h2
  · constructor
    · intro h; exact absurd h (by decide)
    · intro h; exact absurd h1 (not_lt.mpr (h.trans (by norm_num)))
  · constructor
    · intro h; exact absurd h (by decide)
    · intro h; exact absurd h2 (not_lt.mpr h)
  · simp [not_lt.mp h2]

theorem fetch_ok_inv {env : Env} {tickers : List String} {sd ed : Option ℤ}
    {d : PriceTable} (h : fetch_portfolio_data env tickers sd ed = .ok d) :
    env.fetch tickers sd ed = .ok d := by
  unfold fetch_portfolio_data at h
  cases hf : env.fetch tickers sd ed with
  | error e => rw [hf] at h; cases h
  | ok d' => rw [hf] at h; cases h; rfl

theorem optimize_ok_inv {env : Env} {tickers : List String} {sd ed : Option ℤ}
    {rec : OptRecord}
    (h : optimize_portfolio env tickers sd ed = .ok (.ok rec)) :
    ∃ d : PriceTable,
      fetch_portfolio_data env tickers (effectiveRange env sd ed).1
          (effectiveRange env sd ed).2 = .ok d ∧
      d.empty = false ∧
      rec = { optimal_weights := (env.optimize d).cleanedWeights
              expected_annual_return := pyRound2 ((env.optimize d).expectedReturn * 100)
              annual_volatility := pyRound2 ((env.optimize d).volatility * 100)
              sharpe := pyRound2 (env.optimize d).sharpe
              tickers := tickers
              period_start := (effectiveRange env sd ed).1
              period_end := (effectiveRange env sd ed).2 } := by
  unfold optimize_portfolio at h
  dsimp only at h
  cases hf : fetch_portfolio_data env tickers (effectiveRange env sd ed).1
      (effectiveRange env sd ed).2 with
  | error m => rw [hf] at h; cases h
  | ok d =>
    rw [hf] at h
    dsimp only at h
    cases he : d.empty with
    | true => rw [he] at h; simp at h
    | false =>
      rw [he] at h
      simp only [Bool.false_eq_true, if_false] at h
      refine ⟨d, rfl, he, ?_⟩
      cases h
      rfl

theorem predict_ok_inv {env : Env} {tickers : List String} {investment : ℚ}
    {rec : PredRecord}
    (h : predict_portfolio_performance env tickers investment = .ok (.ok rec)) :
    ∃ (opt : OptRecord) (data : PriceTable) (sa : List (String × StockEntry))
      (recs : List String),
      optimize_portfolio env tickers (some (env.today - 730)) (some env.today) =
        .ok (.ok opt) ∧
      fetch_portfolio_data env tickers (some (env.today - 730)) (some env.today) =
        .ok data ∧
      buildStockAnalysis env data tickers opt.optimal_weights investment = .ok sa ∧
      tickers.length ≠ 0 ∧
      generate_recommendations opt sa = .ok recs ∧
      rec = { portfolio_optimization := opt
              stock_analysis := sa
              projections := mkProjections investment opt.expected_annual_return
              risk_level := riskLevel opt.annual_volatility
              diversification_score := diversificationScore opt.optimal_weights tickers
              recommendations := recs } := by
  unfold predict_portfolio_performance at h
  dsimp only at h
  cases ho : optimize_portfolio env tickers (some (env.today - 730)) (some env.today) with
  | error m => rw [ho] at h; cases h
  | ok or =>
    rw [ho] at h
    cases or with
    | error m => dsimp only at h; cases h
    | ok opt =>
      dsimp only at h
      cases hf : fetch_portfolio_data env tickers (some (env.today - 730))
          (some env.today) with
      | error m => rw [hf] at h; cases h
      | ok data =>
        rw [hf] at h
        dsimp only at h
        cases hb : buildStockAnalysis env data tickers opt.optimal_weights investment with
        | error e => rw [hb] at h; cases h
        | ok sa =>
          rw [hb] at h
          dsimp only at h
          by_cases hl : tickers.length = 0
          · rw [if_pos hl] at h; cases h
          · rw [if_neg hl] at h
            cases hr : generate_recommendations opt sa with
            | error e => rw [hr] at h; cases h
            | ok recs =>
              rw [hr] at h
              dsimp only at h
              refine ⟨opt, data, sa, recs, rfl, rfl, hb, hl, hr, ?_⟩
              cases h
              rfl

theorem col?_eq_none_iff {d : PriceTable} {t : String} :
    d.col? t = none ↔ t ∉ d.colNames :=
  lookup_eq_none_iff

theorem buildStockAnalysis_keys {env : Env} {d : PriceTable} :
    ∀ {ts : List String} {w : List (String × ℚ)} {inv : ℚ}
      {sa : List (String × StockEntry)},
    buildStockAnalysis env d ts w inv = .ok sa →
    sa.map Prod.fst = ts.filter (fun tk => tk ∈ d.colNames)
  | [], w, inv, sa, h => by
    unfold buildStockAnalysis at h
    cases h
    rfl
  | t :: rest, w, inv, sa, h => by
    unfold buildStockAnalysis at h
    rw [List.filter_cons]
    cases hcol : d.col? t with
    | none =>
      rw [hcol] at h
      dsimp only at h
      have hnot : t ∉ d.colNames := col?_eq_none_iff.mp hcol
      simp only [decide_eq_false hnot, Bool.false_eq_true, if_false]
      exact buildStockAnalysis_keys h
    | some raw =>
      rw [hcol] at h
      dsimp only at h
      have hmem : t ∈ d.colNames := by
        have hl : d.cols.lookup t = some raw := hcol
        exact List.mem_map_of_mem Prod.fst (lookup_mem hl)
      cases hse : stockEntry env (raw.filterMap id) (weightOf w t) inv with
      | error e => rw [hse] at h; cases h
      | ok entry =>
        rw [hse] at h
        dsimp only at h
        cases hb : buildStockAnalysis env d rest w inv with
        | error e => rw [hb] at h; cases h
        | ok tail =>
          rw [hb] at h
          dsimp only at h
          cases h
          simp only [decide_eq_true hmem, if_true, List.map_cons]
          rw [buildStockAnalysis_keys hb]

theorem buildStockAnalysis_cons_none {env : Env} {d : PriceTable} {t : String}
    {rest : List String} {w : List (String × ℚ)} {inv : ℚ}
    (hcol : d.col? t = none) :
    buildStockAnalysis env d (t :: rest) w inv =
      buildStockAnalysis env d rest w inv := by
  simp only [buildStockAnalysis]
  rw [hcol]

theorem buildStockAnalysis_cons_some {env : Env} {d : PriceTable} {t : String}
    {rest : List String} {w : List (String × ℚ)} {inv : ℚ}
    {raw : List (Option ℚ)} (hcol : d.col? t = some raw) :
    buildStockAnalysis env d (t :: rest) w inv =
      (match stockEntry env (raw.filterMap id) (weightOf w t) inv with
        | .error e => .error e
        | .ok entry =>
          match buildStockAnalysis env d rest w inv with
          | .error e => .error e
          | .ok tail => .ok ((t, entry) :: tail)) := by
  conv_lhs => rw [buildStockAnalysis]
  rw [hcol]

theorem buildStockAnalysis_skip_missing {env : Env} {d : PriceTable} :
    ∀ (ts : List String) (w : List (String × ℚ)) (inv : ℚ),
    buildStockAnalysis env d ts w inv =
      buildStockAnalysis env d (ts.filter (fun tk => tk ∈ d.colNames)) w inv
  | [], w, inv => rfl
  | t :: rest, w, inv => by
    rw [List.filter_cons]
    by_cases hm : t ∈ d.colNames
    · simp only [decide_eq_true hm, if_true]
      have hne : d.col? t ≠ none := fun hc => (col?_eq_none_iff.mp hc) hm
      obtain ⟨raw, hraw⟩ := Option.ne_none_iff_exists'.mp hne
      rw [buildStockAnalysis_cons_some hraw,
        buildStockAnalysis_skip_missing rest w inv,
        buildStockAnalysis_cons_some hraw]
    · simp only [decide_eq_false hm, Bool.false_eq_true, if_false]
      have hcol : d.col? t = none := col?_eq_none_iff.mpr hm
      rw [buildStockAnalysis_cons_none hcol]
      exact buildStockAnalysis_skip_missing rest w inv

/-! ### Claim theorems -/

/-- C5: whenever the fetched price table is empty, `optimize_portfolio`
returns the error record `{"error": "No data available for the given
tickers"}` instead of raising an exception. -/
theorem optimize_empty_data_error (env : Env) (tickers : List String)
    (sd ed : Option ℤ) (d : PriceTable)
    (hfetch : env.fetch tickers (effectiveRange env sd ed).1
        (effectiveRange env sd ed).2 = .ok d)
    (hempty : d.empty = true) :
    optimize_portfolio env tickers sd ed =
      .ok (.error "No data available for the given tickers") := by
  unfold optimize_portfolio fetch_portfolio_data
  dsimp only
  rw [hfetch]
  simp [hempty]

theorem optimize_empty_data_error_witness :
    optimize_portfolio envEmpty ["AAPL"] none none =
      .ok (.error "No data available for the given tickers") :=
  optimize_empty_data_error envEmpty ["AAPL"] none none ⟨true, []⟩ rfl rfl

/-- C2: every successful `predict_portfolio_performance` result projects the
investment over 1, 3 and 5 years by compounding the (rounded, percentage)
expected annual return, rounding each projection and each gain to two
decimals. -/
theorem predict_projections_formula (env : Env) (tickers : List String)
    (investment : ℚ) (rec : PredRecord)
    (h : predict_portfolio_performance env tickers investment = .ok (.ok rec)) :
    rec.projections.projected_1year =
      pyRound2 (investment *
        (1 + rec.portfolio_optimization.expected_annual_return / 100)) ∧
    rec.projections.projected_3year =
      pyRound2 (investment *
        (1 + rec.portfolio_optimization.expected_annual_return / 100) ^ 3) ∧
    rec.projections.projected_5year =
      pyRound2 (investment *
        (1 + rec.portfolio_optimization.expected_annual_return / 100) ^ 5) ∧
    rec.projections.gain_1year =
      pyRound2 (rec.projections.projected_1year - investment) ∧
    rec.projections.gain_3year =
      pyRound2 (rec.projections.projected_3year - investment) ∧
    rec.projections.gain_5year =
      pyRound2 (rec.projections.projected_5year - investment) := by
  obtain ⟨opt, data, sa, recs, -, -, -, -, -, hrec⟩ := predict_ok_inv h
  subst hrec
  simp [mkProjections]

theorem predict_projections_formula_witness :
    goodRec.projections.projected_1year =
      pyRound2 ((10000 : ℚ) *
        (1 + goodRec.portfolio_optimization.expected_annual_return / 100)) ∧
    goodRec.projections.gain_5year =
      pyRound2 (goodRec.projections.projected_5year - 10000) := by
  have h := predict_projections_formula envGood ["AAPL", "MSFT"] 10000 goodRec rfl
  exact ⟨h.1, h.2.2.2.2.2⟩

/-- C3: in every successful `predict_portfolio_performance` result the risk
level is "High" exactly when the annual volatility exceeds 25, "Medium"
exactly when it lies in (15, 25], "Low" otherwise, and the classification is
monotone in the volatility. -/
theorem predict_risk_level_thresholds (env : Env) (tickers : List String)
    (investment : ℚ) (rec : PredRecord)
    (h : predict_portfolio_performance env tickers investment = .ok (.ok rec)) :
    (rec.risk_level = "High" ↔
      25 < rec.portfolio_optimization.annual_volatility) ∧
    (rec.risk_level = "Medium" ↔
      15 < rec.portfolio_optimization.annual_volatility ∧
        rec.portfolio_optimization.annual_volatility ≤ 25) ∧
    (rec.risk_level = "Low" ↔
      rec.portfolio_optimization.annual_volatility ≤ 15) ∧
    (∀ v w : ℚ, v ≤ w → riskRank (riskLevel v) ≤ riskRank (riskLevel w)) ∧
    rec.risk_level = riskLevel rec.portfolio_optimization.annual_volatility := by
  obtain ⟨opt, data, sa, recs, -, -, -, -, -, hrec⟩ := predict_ok_inv h
  subst hrec
  exact ⟨riskLevel_high_iff _, riskLevel_medium_iff _, riskLevel_low_iff _,
    fun v w hvw => riskLevel_mono hvw, rfl⟩

theorem predict_risk_level_thresholds_witness :
    riskRank (riskLevel 10) ≤ riskRank (riskLevel 20) := by
  have h := predict_risk_level_thresholds envGood ["AAPL", "MSFT"] 10000 goodRec rfl
  exact h.2.2.2.1 10 20 (by norm_num)

/-- C10: `generate_recommendations` (when it returns) returns a non-empty
list whose first element is one of the three fixed Sharpe-ratio strings,
chosen solely by the Sharpe ratio thresholds 1.5 and 1.0. -/
theorem generate_recommendations_nonempty_head (opt : OptRecord)
    (sa : List (String × StockEntry)) (recs : List String)
    (h : generate_recommendations opt sa = .ok recs) :
    recs ≠ [] ∧
    recs.head? = some (sharpeRecommendation opt.sharpe) ∧
    (sharpeRecommendation opt.sharpe =
        "Excellent risk-adjusted returns. Strong portfolio allocation." ↔
      3/2 < opt.sharpe) ∧
    (sharpeRecommendation opt.sharpe =
        "Good risk-adjusted returns. Portfolio is well-balanced." ↔
      1 < opt.sharpe ∧ opt.sharpe ≤ 3/2) ∧
    (sharpeRecommendation opt.sharpe =
        "Consider diversifying to improve risk-adjusted returns." ↔
      opt.sharpe ≤ 1) := by
  unfold generate_recommendations at h
  cases hm : pyMax (opt.optimal_weights.map Prod.snd) with
  | error e => rw [hm] at h; cases h
  | ok mw =>
    rw [hm] at h
    dsimp only at h
    cases h
    exact ⟨by simp, rfl, sharpeRecommendation_excellent_iff _,
      sharpeRecommendation_good_iff _, sharpeRecommendation_diversify_iff _⟩

theorem generate_recommendations_nonempty_head_witness :
    recsGood ≠ [] ∧ recsGood.head? = some (sharpeRecommendation optRecGood.sharpe) := by
  have h := generate_recommendations_nonempty_head optRecGood [] recsGood rfl
  exact ⟨h.1, h.2.1⟩

/-- C9: without an explicit start date (as the CLI always calls it), and in
every `predict_portfolio_performance` call, the analysis period recorded in
the result is exactly the 730 days ending at the current date. -/
theorem analysis_period_730_days :
    (∀ (env : Env) (tickers : List String) (rec : OptRecord),
        optimize_portfolio env tickers none none = .ok (.ok rec) →
        rec.period_start = some (env.today - 730) ∧
          rec.period_end = some env.today) ∧
    (∀ (env : Env) (tickers : List String) (investment : ℚ) (rec : PredRecord),
        predict_portfolio_performance env tickers investment = .ok (.ok rec) →
        rec.portfolio_optimization.period_start = some (env.today - 730) ∧
          rec.portfolio_optimization.period_end = some env.today) := by
  constructor
  · intro env tickers rec h
    obtain ⟨d, -, -, hrec⟩ := optimize_ok_inv h
    subst hrec
    exact ⟨rfl, rfl⟩
  · intro env tickers investment rec h
    obtain ⟨opt, data, sa, recs, ho, -, -, -, -, hrec⟩ := predict_ok_inv h
    subst hrec
    obtain ⟨d, -, -, hopt⟩ := optimize_ok_inv ho
    subst hopt
    exact ⟨rfl, rfl⟩

theorem analysis_period_730_days_witness :
    optRecGood.period_start = some (envGood.today - 730) ∧
    goodRec.portfolio_optimization.period_end = some envGood.today :=
  ⟨(analysis_period_730_days.1 envGood ["AAPL", "MSFT"] optRecGood rfl).1,
   (analysis_period_730_days.2 envGood ["AAPL", "MSFT"] 10000 goodRec rfl).2⟩

/-- C8: `optimize_portfolio` passes the external optimizer's cleaned weights
through unchanged, so under the optimizer's contract (each weight in [0,1],
weights summing to 1 within tolerance ε) the `optimal_weights` of every
successful result satisfy the same bounds. -/
theorem optimize_weights_unit_interval_sum (env : Env) (tickers : List String)
    (sd ed : Option ℤ) (rec : OptRecord) (ε : ℚ)
    (h : optimize_portfolio env tickers sd ed = .ok (.ok rec))
    (hw : ∀ d : PriceTable,
        (∀ p ∈ (env.optimize d).cleanedWeights, 0 ≤ p.2 ∧ p.2 ≤ 1) ∧
        |((env.optimize d).cleanedWeights.map Prod.snd).sum - 1| ≤ ε) :
    (∀ p ∈ rec.optimal_weights, 0 ≤ p.2 ∧ p.2 ≤ 1) ∧
    |(rec.optimal_weights.map Prod.snd).sum - 1| ≤ ε := by
  obtain ⟨d, -, -, hrec⟩ := optimize_ok_inv h
  subst hrec
  exact hw d

theorem optimize_weights_unit_interval_sum_witness :
    (0 ≤ (3 : ℚ)/5 ∧ (3 : ℚ)/5 ≤ 1) ∧
    |((optRecGood.optimal_weights.map Prod.snd).sum - 1 : ℚ)| ≤ 1/1000 := by
  have hw : ∀ d : PriceTable,
      (∀ p ∈ (envGood.optimize d).cleanedWeights, 0 ≤ p.2 ∧ p.2 ≤ 1) ∧
      |((envGood.optimize d).cleanedWeights.map Prod.snd).sum - 1| ≤ 1/1000 := by
    intro d
    constructor
    · intro p hp
      simp only [envGood, List.mem_cons, List.not_mem_nil, or_false] at hp
      rcases hp with rfl | rfl <;> norm_num
    · simp only [envGood, List.map_cons, List.map_nil, List.sum_cons, List.sum_nil]
      norm_num
  have h := optimize_weights_unit_interval_sum envGood ["AAPL", "MSFT"]
    none none optRecGood (1/1000) rfl hw
  refine ⟨h.1 ("AAPL", 3/5) ?_, h.2⟩
  show ("AAPL", (3 : ℚ)/5) ∈ [("AAPL", (3 : ℚ)/5), ("MSFT", (2 : ℚ)/5)]
  simp

/-- C4: in every successful `predict_portfolio_performance` result over a
ticker list with at least as many entries as the optimizer returned weights
above 0.05, the diversification score is the rounded percentage of such
weights among the requested tickers, and it lies in [0, 100]. -/
theorem predict_diversification_score (env : Env) (tickers : List String)
    (investment : ℚ) (rec : PredRecord)
    (h : predict_portfolio_performance env tickers investment = .ok (.ok rec))
    (hcount : (rec.portfolio_optimization.optimal_weights.filter
        (fun p => p.2 > 5/100)).length ≤ tickers.length) :
    rec.diversification_score =
      pyRound2 (((rec.portfolio_optimization.optimal_weights.filter
        (fun p => p.2 > 5/100)).length : ℚ) / (tickers.length : ℚ) * 100) ∧
    0 ≤ rec.diversification_score ∧ rec.diversification_score ≤ 100 := by
  obtain ⟨opt, data, sa, recs, -, -, -, hlen, -, hrec⟩ := predict_ok_inv h
  subst hrec
  dsimp only at hcount ⊢
  have hnpos : (0 : ℚ) < (tickers.length : ℚ) := by
    exact_mod_cast Nat.pos_of_ne_zero hlen
  refine ⟨rfl, ?_, ?_⟩
  · apply pyRound2_nonneg
    positivity
  · apply pyRound2_le_hundred
    have h1 : ((opt.optimal_weights.filter (fun p => p.2 > 5/100)).length : ℚ) /
        (tickers.length : ℚ) ≤ 1 :=
      (div_le_one hnpos).mpr (by exact_mod_cast hcount)
    have h2 := mul_le_mul_of_nonneg_right h1 (by norm_num : (0 : ℚ) ≤ 100)
    simpa using h2

theorem predict_diversification_score_witness :
    0 ≤ goodRec.diversification_score ∧ goodRec.diversification_score ≤ 100 := by
  have hcount : (goodRec.portfolio_optimization.optimal_weights.filter
      (fun p => p.2 > 5/100)).length ≤ (["AAPL", "MSFT"] : List String).length :=
    le_trans (List.length_filter_le _ _) (Nat.le_of_eq rfl)
  have h := predict_diversification_score envGood ["AAPL", "MSFT"] 10000 goodRec
    rfl hcount
  exact h.2

/-- C6: in every successful `predict_portfolio_performance` result,
`stock_analysis` holds entries exactly for the requested tickers present in
the fetched data's columns; requested tickers missing from the columns are
skipped by the loop without any effect (dropping them from the request
changes nothing), hence without raising. -/
theorem predict_stock_analysis_keys (env : Env) (tickers : List String)
    (investment : ℚ) (rec : PredRecord) (d : PriceTable)
    (h : predict_portfolio_performance env tickers investment = .ok (.ok rec))
    (hd : env.fetch tickers (some (env.today - 730)) (some env.today) = .ok d) :
    rec.stock_analysis.map Prod.fst =
      tickers.filter (fun tk => tk ∈ d.colNames) ∧
    (∀ tk, tk ∈ rec.stock_analysis.map Prod.fst ↔
      tk ∈ tickers ∧ tk ∈ d.colNames) ∧
    (∀ (ts : List String) (w : List (String × ℚ)) (i : ℚ),
        buildStockAnalysis env d ts w i =
          buildStockAnalysis env d (ts.filter (fun tk => tk ∈ d.colNames)) w i) := by
  obtain ⟨opt, data, sa, recs, -, hf, hb, -, -, hrec⟩ := predict_ok_inv h
  have hdd : data = d := by
    have h2 := fetch_ok_inv hf
    rw [hd] at h2
    cases h2
    rfl
  subst hdd
  subst hrec
  refine ⟨buildStockAnalysis_keys hb, ?_, buildStockAnalysis_skip_missing⟩
  intro tk
  dsimp only
  rw [buildStockAnalysis_keys hb, List.mem_filter]
  simp

theorem predict_stock_analysis_keys_witness :
    goodRec3.stock_analysis.map Prod.fst = ["AAPL", "MSFT"] := by
  have h := (predict_stock_analysis_keys envGood ["AAPL", "MSFT", "GOOG"] 10000
    goodRec3 tableGood rfl rfl).1
  refine h.trans ?_
  decide

/-- C7: a CLI invocation of either command over a ticker argument for which
the provider either raises or returns an empty table (as it does for an
empty or all-invalid ticker list) prints exactly one JSON object, that
object has an `error` field, and the process does not die with an uncaught
exception. -/
theorem cli_invalid_tickers_error (env : Env) (p cmd targ : String)
    (hcmd : cmd = "optimize" ∨ cmd = "predict")
    (hfetch : (∃ m, env.fetch (pySplit targ ',') (some (env.today - 730))
          (some env.today) = .error m) ∨
        (∃ d, env.fetch (pySplit targ ',') (some (env.today - 730))
          (some env.today) = .ok d ∧ d.empty = true)) :
    (runMain env [p, cmd, targ]).uncaught = false ∧
    (runMain env [p, cmd, targ]).stdout.length = 1 ∧
    ∀ j ∈ (runMain env [p, cmd, targ]).stdout, j.hasErrorField = true := by
  rcases hcmd with rfl | rfl
  · rcases hfetch with ⟨m, hm⟩ | ⟨d, hd, he⟩
    · have hopt : optimize_portfolio env (pySplit targ ',') none none =
          .error ("Failed to fetch data: " ++ m) := by
        unfold optimize_portfolio fetch_portfolio_data effectiveRange
        dsimp only
        rw [hm]
      simp [runMain, hopt, JOut.hasErrorField]
    · have hopt : optimize_portfolio env (pySplit targ ',') none none =
          .ok (.error "No data available for the given tickers") := by
        unfold optimize_portfolio fetch_portfolio_data effectiveRange
        dsimp only
        rw [hd]
        simp [he]
      simp [runMain, hopt, JOut.hasErrorField]
  · rcases hfetch with ⟨m, hm⟩ | ⟨d, hd, he⟩
    · have hopt : optimize_portfolio env (pySplit targ ',')
          (some (env.today - 730)) (some env.today) =
          .error ("Failed to fetch data: " ++ m) := by
        unfold optimize_portfolio fetch_portfolio_data effectiveRange
        dsimp only
        rw [hm]
      have hpred : predict_portfolio_performance env (pySplit targ ',') 10000 =
          .error (.exitPrinted ("Failed to fetch data: " ++ m)) := by
        unfold predict_portfolio_performance
        dsimp only
        rw [hopt]
      simp [runMain, hpred, JOut.hasErrorField]
    · have hopt : optimize_portfolio env (pySplit targ ',')
          (some (env.today - 730)) (some env.today) =
          .ok (.error "No data available for the given tickers") := by
        unfold optimize_portfolio fetch_portfolio_data effectiveRange
        dsimp only
        rw [hd]
        simp [he]
      have hpred : predict_portfolio_performance env (pySplit targ ',') 10000 =
          .ok (.error "No data available for the given tickers") := by
        unfold predict_portfolio_performance
        dsimp only
        rw [hopt]
      simp [runMain, hpred, JOut.hasErrorField]

theorem cli_invalid_tickers_error_witness :
    (runMain envEmpty ["portfolio_optimizer.py", "optimize", ""]).uncaught = false ∧
    (runMain envEmpty ["portfolio_optimizer.py", "optimize", ""]).stdout.length = 1 ∧
    (JOut.optResult (.error "No data available for the given tickers")).hasErrorField
      = true := by
  have h := cli_invalid_tickers_error envEmpty "portfolio_optimizer.py" "optimize" ""
    (Or.inl rfl) (Or.inr ⟨⟨true, []⟩, rfl, rfl⟩)
  exact ⟨h.1, h.2.1, h.2.2 _ (by decide)⟩

theorem buildStockAnalysis_total {env : Env} {d : PriceTable}
    (hcols : ∀ c ∈ d.cols, c.2.filterMap id ≠ []) :
    ∀ (ts : List String) (w : List (String × ℚ)) (inv : ℚ),
    ∃ sa, buildStockAnalysis env d ts w inv = .ok sa
  | [], _, _ => ⟨[], rfl⟩
  | t :: rest, w, inv => by
    cases hcol : d.col? t with
    | none =>
      rw [buildStockAnalysis_cons_none hcol]
      exact buildStockAnalysis_total hcols rest w inv
    | some raw =>
      rw [buildStockAnalysis_cons_some hcol]
      have hser : raw.filterMap id ≠ [] := hcols (t, raw) (lookup_mem hcol)
      cases hlast : (raw.filterMap id).getLast? with
      | none => exact absurd (List.getLast?_eq_none_iff.mp hlast) hser
      | some last =>
        have hse : stockEntry env (raw.filterMap id) (weightOf w t) inv =
            .ok { current_price := pyRound2 last
                  avg_return := pyRound2 (seriesMean (pctChange (raw.filterMap id)) * 252 * 100)
                  volatility := pyRound2 (seriesStd env (pctChange (raw.filterMap id)) * env.sqrt 252 * 100)
                  optimal_weight := weightOf w t
                  recommended_allocation := pyRound2 (inv * weightOf w t) } := by
          unfold stockEntry
          rw [hlast]
        rw [hse]
        obtain ⟨tail, htail⟩ := buildStockAnalysis_total hcols rest w inv
        rw [htail]
        exact ⟨_, rfl⟩

theorem generate_recommendations_total {opt : OptRecord}
    {sa : List (String × StockEntry)}
    (hw : opt.optimal_weights ≠ []) :
    ∃ recs, generate_recommendations opt sa = .ok recs := by
  cases hmw : opt.optimal_weights.map Prod.snd with
  | nil => exact absurd (List.map_eq_nil_iff.mp hmw) hw
  | cons a l =>
    unfold generate_recommendations
    rw [hmw]
    exact ⟨_, rfl⟩

theorem predict_not_uncaught {env : Env} {t : List String} {inv : ℚ}
    (henv : EnvOk env) (ht : t ≠ []) (e : PyExc) :
    predict_portfolio_performance env t inv ≠ .error (.uncaught e) := by
  intro hcontra
  unfold predict_portfolio_performance at hcontra
  dsimp only at hcontra
  cases ho : optimize_portfolio env t (some (env.today - 730)) (some env.today) with
  | error m => rw [ho] at hcontra; simp at hcontra
  | ok or =>
    rw [ho] at hcontra
    cases or with
    | error m => simp at hcontra
    | ok opt =>
      obtain ⟨d, hfd, hemp, hopt⟩ := optimize_ok_inv ho
      dsimp only at hcontra
      rw [show fetch_portfolio_data env t (some (env.today - 730))
          (some env.today) = .ok d from hfd] at hcontra
      dsimp only at hcontra
      obtain ⟨hcols, hwne⟩ :=
        henv t _ _ d (fetch_ok_inv hfd) hemp
      obtain ⟨sa, hsa⟩ := buildStockAnalysis_total hcols t opt.optimal_weights inv
      rw [hsa] at hcontra
      dsimp only at hcontra
      rw [if_neg (fun h0 : t.length = 0 => ht (List.length_eq_zero.mp h0))] at hcontra
      have hwopt : opt.optimal_weights ≠ [] := by
        rw [hopt]
        exact hwne
      obtain ⟨recs, hrecs⟩ := @generate_recommendations_total opt sa hwopt
      rw [hrecs] at hcontra
      simp at hcontra

theorem runMain_short {env : Env} {argv : List String}
    (h : argv.length < 2) :
    runMain env argv =
      { stdout := [.errorObj "No tickers provided"], exit := 1, uncaught := false } := by
  unfold runMain
  rw [if_pos h]

theorem runMain_optimize (env : Env) (p targ : String) (rest : List String) :
    runMain env (p :: "optimize" :: targ :: rest) =
      (match optimize_portfolio env (pySplit targ ',') none none with
        | .error m => { stdout := [.errorObj m], exit := 1, uncaught := false }
        | .ok r => { stdout := [.optResult r], exit := 0, uncaught := false }) := by
  unfold runMain
  have hlen : ¬ (p :: "optimize" :: targ :: rest).length < 2 := by
    simp [List.length]
  rw [if_neg hlen]
  rfl

theorem runMain_predict_default (env : Env) (p targ : String) :
    runMain env [p, "predict", targ] =
      (match predict_portfolio_performance env (pySplit targ ',') 10000 with
        | .error (.exitPrinted m) =>
          { stdout := [.errorObj m], exit := 1, uncaught := false }
        | .error (.uncaught _) => { stdout := [], exit := 1, uncaught := true }
        | .ok r => { stdout := [.predResult r], exit := 0, uncaught := false }) := by
  unfold runMain
  have hlen : ¬ ([p, "predict", targ]).length < 2 := by
    simp [List.length]
  rw [if_neg hlen]
  rfl

theorem runMain_predict_amount (env : Env) (p targ a : String) (rest : List String) :
    runMain env (p :: "predict" :: targ :: a :: rest) =
      (match env.parseFloat a with
        | none => { stdout := [], exit := 1, uncaught := true }
        | some q =>
          match predict_portfolio_performance env (pySplit targ ',') q with
          | .error (.exitPrinted m) =>
            { stdout := [.errorObj m], exit := 1, uncaught := false }
          | .error (.uncaught _) => { stdout := [], exit := 1, uncaught := true }
          | .ok r => { stdout := [.predResult r], exit := 0, uncaught := false }) := by
  unfold runMain
  have hlen : ¬ (p :: "predict" :: targ :: a :: rest).length < 2 := by
    simp [List.length]
  rw [if_neg hlen]
  have hlen3 : (p :: "predict" :: targ :: a :: rest).length > 3 := by
    simp [List.length]
  dsimp only
  rw [if_pos hlen3]
  rfl

theorem runMain_invalid (env : Env) (p cmd : String) (rest : List String)
    (h1 : cmd ≠ "optimize") (h2 : cmd ≠ "predict") :
    runMain env (p :: cmd :: rest) =
      { stdout := [.errorObj "Invalid command. Use \x27optimize\x27 or \x27predict\x27"]
        exit := 1, uncaught := false } := by
  unfold runMain
  have hlen : ¬ (p :: cmd :: rest).length < 2 := by
    simp [List.length]
  rw [if_neg hlen]
  dsimp only
  rw [if_neg (show ¬ ((p :: cmd :: rest).getD 1 "") = "optimize" from h1),
    if_neg (show ¬ ((p :: cmd :: rest).getD 1 "") = "predict" from h2)]

/-- C1 (counterexample): an `optimize` invocation whose computation produces
an error record prints that record and exits with code 0, not 1. -/
theorem cli_error_record_exits_zero :
    (runMain envEmpty ["portfolio_optimizer.py", "optimize", "AAPL"]).stdout =
      [.optResult (.error "No data available for the given tickers")] ∧
    (runMain envEmpty ["portfolio_optimizer.py", "optimize", "AAPL"]).exit = 0 := by
  decide

/-- C1 (amended): for every CLI invocation whose arguments are well formed
(`ArgsOk`: the ticker argument exists when a known command is given, and an
explicit investment amount parses) against well-behaved collaborators
(`EnvOk`), the program prints exactly one JSON object, never dies with an
uncaught exception, and exits with code 1 exactly when that object is a
top-level printed error (usage error, invalid command, or data-fetch
failure) — in particular it exits 0 when the printed object is an error
record produced by the computation. -/
theorem cli_single_json_exit (env : Env) (argv : List String)
    (hargs : ArgsOk env argv) (henv : EnvOk env) :
    (runMain env argv).uncaught = false ∧
    (runMain env argv).stdout.length = 1 ∧
    ((runMain env argv).exit = 0 ∨ (runMain env argv).exit = 1) ∧
    ((runMain env argv).exit = 1 ↔ ∃ m, (runMain env argv).stdout = [.errorObj m]) := by
  obtain ⟨hargs2, hargsF⟩ := hargs
  match argv with
  | [] =>
    rw [runMain_short (by simp)]
    exact ⟨rfl, rfl, Or.inr rfl,
      fun _ => ⟨"No tickers provided", rfl⟩, fun _ => rfl⟩
  | [p] =>
    rw [runMain_short (by simp)]
    exact ⟨rfl, rfl, Or.inr rfl,
      fun _ => ⟨"No tickers provided", rfl⟩, fun _ => rfl⟩
  | p :: cmd :: rest =>
    by_cases hco : cmd = "optimize"
    · subst hco
      match rest with
      | [] => exact absurd rfl (hargs2 rfl).1
      | targ :: rest2 =>
        rw [runMain_optimize env p targ rest2]
        cases ho : optimize_portfolio env (pySplit targ ',') none none with
        | error m =>
          exact ⟨rfl, rfl, Or.inr rfl, fun _ => ⟨m, rfl⟩, fun _ => rfl⟩
        | ok r =>
          refine ⟨rfl, rfl, Or.inl rfl, ?_, ?_⟩
          · intro h01; cases h01
          · rintro ⟨m, hm⟩; simp at hm
    · by_cases hcp : cmd = "predict"
      · subst hcp
        match rest with
        | [] => exact absurd rfl (hargs2 rfl).2
        | [targ] =>
          rw [runMain_predict_default env p targ]
          cases hp : predict_portfolio_performance env (pySplit targ ',') 10000 with
          | error pf =>
            cases pf with
            | exitPrinted m =>
              exact ⟨rfl, rfl, Or.inr rfl, fun _ => ⟨m, rfl⟩, fun _ => rfl⟩
            | uncaught e =>
              exact absurd hp (predict_not_uncaught henv (pySplit_ne_nil targ ',') e)
          | ok r =>
            refine ⟨rfl, rfl, Or.inl rfl, ?_, ?_⟩
            · intro h01; cases h01
            · rintro ⟨m, hm⟩; simp at hm
        | targ :: a :: rest3 =>
          rw [runMain_predict_amount env p targ a rest3]
          have hsome : (env.parseFloat ((p :: "predict" :: targ :: a :: rest3).getD 3 "")).isSome
              = true := hargsF rfl (by simp [List.length])
          cases hq : env.parseFloat a with
          | none =>
            rw [show (p :: "predict" :: targ :: a :: rest3).getD 3 "" = a from rfl, hq]
              at hsome
            cases hsome
          | some q =>
            dsimp only
            cases hp : predict_portfolio_performance env (pySplit targ ',') q with
            | error pf =>
              cases pf with
              | exitPrinted m =>
                exact ⟨rfl, rfl, Or.inr rfl, fun _ => ⟨m, rfl⟩, fun _ => rfl⟩
              | uncaught e =>
                exact absurd hp (predict_not_uncaught henv (pySplit_ne_nil targ ',') e)
            | ok r =>
              refine ⟨rfl, rfl, Or.inl rfl, ?_, ?_⟩
              · intro h01; cases h01
              · rintro ⟨m, hm⟩; simp at hm
      · rw [runMain_invalid env p cmd rest hco hcp]
        exact ⟨rfl, rfl, Or.inr rfl,
          fun _ => ⟨"Invalid command. Use \x27optimize\x27 or \x27predict\x27", rfl⟩,
          fun _ => rfl⟩

theorem cli_single_json_exit_witness :
    (runMain envGood ["portfolio_optimizer.py", "predict", "AAPL,MSFT"]).uncaught
      = false ∧
    (runMain envGood ["portfolio_optimizer.py", "predict", "AAPL,MSFT"]).stdout.length
      = 1 ∧
    (runMain envGood ["portfolio_optimizer.py", "predict", "AAPL,MSFT"]).exit = 0 := by
  have hargs : ArgsOk envGood ["portfolio_optimizer.py", "predict", "AAPL,MSFT"] := by
    constructor
    · intro h; simp at h
    · intro _ h3; simp at h3
  have henv : EnvOk envGood := by
    intro t sd ed d hf hemp
    have hd : tableGood = d := by
      injection hf
    subst hd
    exact ⟨by decide, by decide⟩
  have h := cli_single_json_exit envGood
    ["portfolio_optimizer.py", "predict", "AAPL,MSFT"] hargs henv
  refine ⟨h.1, h.2.1, ?_⟩
  rcases h.2.2.1 with h0 | h1
  · exact h0
  · exfalso
    obtain ⟨m, hm⟩ := h.2.2.2.mp h1
    rw [show (runMain envGood ["portfolio_optimizer.py", "predict", "AAPL,MSFT"]).stdout
        = [JOut.predResult (.ok goodRec)] from rfl] at hm
    simp at hm

end PortfolioOptimizer
